import Mathlib

/-!
Verification of the Orderly pending-order lifecycle and reconciliation engine.

The definitions below are a shallow embedding of the handlers in
`src/components/OrderFlowApp.tsx` (the localStorage revision that stamps each
pending batch with `createdAt`, lines 405-479, and where noted the earlier
revision without `createdAt`, lines 102-174), of the quantity editors in
`src/components/OrderCreation.tsx` and `src/components/DeliveryConfirmationDialog.tsx`,
and of the Firestore update helper in `src/hooks/usePendingOrders.ts`.

Conventions of the embedding:
- JS numbers carrying money (`price`, `totalAmount`) become `ℚ`; quantities
  (which the UI can drive to arbitrary integers through `parseInt`) become `ℤ`;
  ISO-8601 timestamps, which the code only ever compares through
  `getTime()` / `parseISO(..).getTime()`, become `ℤ` epoch milliseconds.
- `Array.prototype.sort` with the comparator
  `(a, b) => parseISO(b.createdAt).getTime() - parseISO(a.createdAt).getTime()`
  is a stable sort by `createdAt` descending; it is modelled by
  `List.insertionSort`, which is stable for the same total preorder and hence
  produces the same list.
- React `useState` pairs become explicit state records threaded through the
  handlers; a handler that early-returns after a toast leaves the state
  untouched, which the embedding makes explicit by returning the input state.
-/

namespace Orderly

/-- JS `String.prototype.trim`: strips leading and trailing whitespace.
(`String.trim` of the Lean core library is extensionally the same but does not
reduce inside the kernel, so the list-level computation is spelled out.) -/
def jsTrim (s : String) : String :=
  ⟨((s.toList.dropWhile Char.isWhitespace).reverse.dropWhile Char.isWhitespace).reverse⟩

/-- `OrderItem` from `src/lib/types.ts`. -/
structure OrderItem where
  productId : String
  productName : String
  quantity : ℤ
  price : ℚ
deriving Repr, DecidableEq

/-- `items.reduce((total, item) => total + item.price * item.quantity, 0)`,
the total computation repeated verbatim at every creation and update site. -/
def computeTotal (items : List OrderItem) : ℚ :=
  items.foldl (fun total item => total + item.price * item.quantity) 0

/-- `PendingOrder` of the localStorage revision with `createdAt`
(`src/components/OrderFlowApp.tsx` line 416-422 builds exactly these fields). -/
structure PendingOrder where
  id : String
  customerName : String
  items : List OrderItem
  totalAmount : ℚ
  createdAt : ℤ
deriving Repr, DecidableEq

/-- `Order` from `src/lib/types.ts`. -/
structure Order where
  id : String
  customerName : String
  items : List OrderItem
  totalAmount : ℚ
  orderDate : ℤ
deriving Repr, DecidableEq

/-- The two component state variables the pending-order handlers read and
write: `pendingOrders` and `orders`. -/
structure AppState where
  pendingOrders : List PendingOrder
  orders : List Order
deriving Repr, DecidableEq

/-- `.sort((a,b) => parseISO(b.createdAt).getTime() - parseISO(a.createdAt).getTime())`. -/
def sortPendingByCreatedAtDesc (l : List PendingOrder) : List PendingOrder :=
  l.insertionSort (fun a b => b.createdAt ≤ a.createdAt)

/-- `.sort((a,b) => parseISO(b.orderDate).getTime() - parseISO(a.orderDate).getTime())`. -/
def sortOrdersByDateDesc (l : List Order) : List Order :=
  l.insertionSort (fun a b => b.orderDate ≤ a.orderDate)

/-- The two validation failures `handleAddItemsToPendingList` reports by toast
before touching any state. -/
inductive CreateError where
  | customerNameRequired
  | noItemsStaged
deriving Repr, DecidableEq

/-- `handleAddItemsToPendingList` (OrderFlowApp.tsx lines 405-425): validates
the customer name and staged items, then builds a fresh `PendingOrder` and
stores `[newPendingOrder, ...prev]` re-sorted by `createdAt` descending.
`freshId` stands for `crypto.randomUUID()` and `now` for `new Date()`. -/
def handleAddItemsToPendingList (s : AppState) (customerName : String)
    (itemsToAdd : List OrderItem) (freshId : String) (now : ℤ) :
    Except CreateError Unit × AppState :=
  if jsTrim customerName = "" then
    (Except.error CreateError.customerNameRequired, s)
  else if itemsToAdd.isEmpty then
    (Except.error CreateError.noItemsStaged, s)
  else
    let totalAmount := computeTotal itemsToAdd
    let newPendingOrder : PendingOrder :=
      { id := freshId, customerName := customerName, items := itemsToAdd,
        totalAmount := totalAmount, createdAt := now }
    (Except.ok (),
      { s with pendingOrders := sortPendingByCreatedAtDesc (newPendingOrder :: s.pendingOrders) })

/-- `PendingOrder` of the first pending-queue revision
(OrderFlowApp.tsx lines 23-28): no `createdAt` field at all. -/
structure PendingOrderV1 where
  id : String
  customerName : String
  items : List OrderItem
  totalAmount : ℚ
deriving Repr, DecidableEq

/-- `handleAddItemsToPendingList` of the first pending-queue revision
(OrderFlowApp.tsx lines 102-122): same validation, but the new batch is stored
with `setPendingOrders(prev => [...prev, newPendingOrder])`, i.e. at the tail. -/
def handleAddItemsToPendingListV1 (prev : List PendingOrderV1) (customerName : String)
    (itemsToAdd : List OrderItem) (freshId : String) : List PendingOrderV1 :=
  if jsTrim customerName = "" then prev
  else if itemsToAdd.isEmpty then prev
  else
    prev ++ [{ id := freshId, customerName := customerName, items := itemsToAdd,
               totalAmount := computeTotal itemsToAdd }]

/-- `handleConfirmFullDelivery` (OrderFlowApp.tsx lines 432-452; the Firestore
revision at lines 708-730 is the same up to persistence): looks the batch up,
builds an `Order` from the batch's stored `items` and `totalAmount`, prepends it
to `orders` re-sorted by date descending, and filters the batch out of
`pendingOrders`. Returns `none` on the not-found early return. -/
def handleConfirmFullDelivery (s : AppState) (pendingOrderId : String)
    (freshOrderId : String) (now : ℤ) : Option AppState :=
  match s.pendingOrders.find? (fun po => po.id = pendingOrderId) with
  | none => none
  | some orderToSave =>
    let newOrder : Order :=
      { id := freshOrderId, customerName := orderToSave.customerName,
        items := orderToSave.items, totalAmount := orderToSave.totalAmount,
        orderDate := now }
    some { s with
      orders := sortOrdersByDateDesc (newOrder :: s.orders),
      pendingOrders := s.pendingOrders.filter (fun po => po.id ≠ pendingOrderId) }

/-- `handleUpdatePendingOrderQuantities` (OrderFlowApp.tsx lines 454-472; the
Firestore revision at lines 732-753 is the same up to persistence): if the
batch is absent the handler returns without effect; if the edited list is empty
the batch is deleted (and nothing is appended to `orders`); otherwise the
batch's `items` and `totalAmount` are replaced and the list is re-sorted. -/
def handleUpdatePendingOrderQuantities (s : AppState) (pendingOrderId : String)
    (updatedItems : List OrderItem) : AppState :=
  match s.pendingOrders.find? (fun po => po.id = pendingOrderId) with
  | none => s
  | some _ =>
    if updatedItems.isEmpty then
      { s with pendingOrders := s.pendingOrders.filter (fun po => po.id ≠ pendingOrderId) }
    else
      let newTotalAmount := computeTotal updatedItems
      let mapped := s.pendingOrders.map (fun po =>
        if po.id = pendingOrderId then
          { po with items := updatedItems, totalAmount := newTotalAmount }
        else po)
      { s with pendingOrders := sortPendingByCreatedAtDesc mapped }

/-- `handleQuantityChange` (DeliveryConfirmationDialog.tsx lines 40-46): the
reconciliation editor replaces a matching item's quantity by
`Math.max(0, newQuantity)` and keeps the entry in the list. -/
def handleQuantityChange (items : List OrderItem) (productId : String)
    (newQuantity : ℤ) : List OrderItem :=
  items.map (fun item =>
    if item.productId = productId then { item with quantity := max 0 newQuantity } else item)

/-- `const validUpdatedItems = editedItems.filter(item => item.quantity > 0)`
(DeliveryConfirmationDialog.tsx `handleUpdatePending`): what the dialog submits
to the adjustment handler. -/
def validUpdatedItems (editedItems : List OrderItem) : List OrderItem :=
  editedItems.filter (fun item => 0 < item.quantity)

/-- The reconciliation adjustment path as exercised end to end: the dialog's
`handleUpdatePending` filters the edited items to the positive-quantity ones
and hands them to `handleUpdatePendingOrderQuantities`. -/
def applyAdjustment (s : AppState) (pendingOrderId : String)
    (editedItems : List OrderItem) : AppState :=
  handleUpdatePendingOrderQuantities s pendingOrderId (validUpdatedItems editedItems)

/-- `handleUpdateStagedItemQuantity` (OrderCreation.tsx lines 283-285;
`handleUpdateItemQuantity` at lines 66-68 has the identical body): the staging
editors replace a matching item's quantity by `Math.max(1, newQuantity)`. -/
def handleUpdateStagedItemQuantity (items : List OrderItem) (productId : String)
    (newQuantity : ℤ) : List OrderItem :=
  items.map (fun item =>
    if item.productId = productId then { item with quantity := max 1 newQuantity } else item)

/-- The mutation `updatedItems[existingItemIndex].quantity += quantity` applied
at the index returned by `findIndex`: increments the first matching entry. -/
def incrementFirstMatch (productId : String) (quantity : ℤ) :
    List OrderItem → List OrderItem
  | [] => []
  | item :: rest =>
    if item.productId = productId then
      { item with quantity := item.quantity + quantity } :: rest
    else
      item :: incrementFirstMatch productId quantity rest

/-- The staging aggregation of `handleAddItem` / `handleStageItem`
(OrderCreation.tsx lines 50-61): if `findIndex` locates an entry with the
selected product id its quantity is incremented, otherwise a new `OrderItem`
is appended. -/
def handleStageItem (prevStaged : List OrderItem) (productId productName : String)
    (price : ℚ) (quantity : ℤ) : List OrderItem :=
  if prevStaged.any (fun item => item.productId = productId) then
    incrementFirstMatch productId quantity prevStaged
  else
    prevStaged ++ [{ productId := productId, productName := productName,
                     quantity := quantity, price := price }]

/-- `const TWENTY_FOUR_HOURS_MS = 24 * 60 * 60 * 1000`. -/
def TWENTY_FOUR_HOURS_MS : ℤ := 24 * 60 * 60 * 1000

/-- The aged-order check effect (OrderFlowApp.tsx lines 360-380; lines 57-77 in
the earlier revision are the same): guarded by
`orders.length > 0 && !initialAgedOrderCheckDone`, it walks `orders` (and only
`orders` — `pendingOrders` is never inspected), toasts one alert per order with
`now - orderDate > TWENTY_FOUR_HOURS_MS`, then sets the done flag. The alerts
are modelled by the ids of the orders toasted; the second component is the
updated done flag. -/
def runAgedOrderCheck (s : AppState) (now : ℤ)
    (initialAgedOrderCheckDone : Bool) : List String × Bool :=
  if initialAgedOrderCheckDone = false ∧ ¬ s.orders.isEmpty then
    ((s.orders.filter (fun o => TWENTY_FOUR_HOURS_MS < now - o.orderDate)).map
        (fun o => o.id),
      true)
  else
    ([], initialAgedOrderCheckDone)

/-- The `PendingOrder` document shape of the category-batching revision
(`src/unnamed/part_002` lines 16-24): it carries both the current pending
`items`/`totalAmount` and the creation-time `originalItems`/`originalTotalAmount`. -/
structure PendingOrderDoc where
  id : String
  customerName : String
  items : List OrderItem
  totalAmount : ℚ
  originalItems : List OrderItem
  originalTotalAmount : ℚ
  createdAt : ℤ
deriving Repr, DecidableEq

/-- `updatePendingOrderInFirestore` (usePendingOrders.ts lines 36-39):
`updateDoc(doc(docRef, id), { items, totalAmount })` writes exactly the two
named fields of the stored document and leaves every other field as it was. -/
def updatePendingOrderInFirestore (d : PendingOrderDoc) (items : List OrderItem)
    (totalAmount : ℚ) : PendingOrderDoc :=
  { d with items := items, totalAmount := totalAmount }

/-- A sequence of quantity edits in the delivery-confirmation dialog, each one a
`(productId, requestedQuantity)` click or keystroke routed through
`handleQuantityChange`. -/
def applyEdits (items : List OrderItem) (edits : List (String × ℤ)) : List OrderItem :=
  edits.foldl (fun acc e => handleQuantityChange acc e.1 e.2) items

/-! ### Supporting lemmas -/

theorem handleQuantityChange_nonneg {items : List OrderItem} {productId : String}
    {newQuantity : ℤ} (h0 : ∀ item ∈ items, 0 ≤ item.quantity) :
    ∀ item ∈ handleQuantityChange items productId newQuantity, 0 ≤ item.quantity := by
  intro item hmem
  rcases List.mem_map.mp hmem with ⟨it0, hit0, heq⟩
  subst heq
  by_cases h : it0.productId = productId
  · simp only [h, if_true]
    exact le_max_left 0 newQuantity
  · simp only [h, if_false]
    exact h0 it0 hit0

instance : IsTotal PendingOrder (fun a b => b.createdAt ≤ a.createdAt) :=
  ⟨fun a b => le_total b.createdAt a.createdAt⟩

instance : IsTrans PendingOrder (fun a b => b.createdAt ≤ a.createdAt) :=
  ⟨fun _ _ _ hab hbc => le_trans hbc hab⟩

theorem sortPendingByCreatedAtDesc_sorted (l : List PendingOrder) :
    List.Sorted (fun a b => b.createdAt ≤ a.createdAt) (sortPendingByCreatedAtDesc l) :=
  List.sorted_insertionSort _ l

theorem head_of_sorted_createdAt_max {l rest : List PendingOrder} {b : PendingOrder}
    (hperm : l.Perm (b :: rest))
    (hsorted : List.Sorted (fun a b => b.createdAt ≤ a.createdAt) l)
    (hmax : ∀ po ∈ rest, po.createdAt < b.createdAt) :
    l.head? = some b := by
  cases l with
  | nil => exact absurd hperm.symm (by simp)
  | cons h t =>
    rcases List.mem_cons.mp (hperm.subset (List.mem_cons_self h t)) with rfl | hh
    · rfl
    · exfalso
      have hblt : h.createdAt < b.createdAt := hmax h hh
      rcases List.mem_cons.mp (hperm.mem_iff.mpr (List.mem_cons_self b rest)) with rfl | hb
      · exact lt_irrefl _ hblt
      · have hle : b.createdAt ≤ h.createdAt := (List.sorted_cons.mp hsorted).1 b hb
        exact lt_irrefl _ (lt_of_le_of_lt hle hblt)

/-! ### Claim theorems -/

/-- C5 counterexample: in the first pending-queue revision an existing batch
stays at the head after a successful create — the new batch is appended at the
tail, and the batches carry no `createdAt` at all. -/
theorem createV1_appends_at_tail_cex :
    (handleAddItemsToPendingListV1
        [{ id := "b1", customerName := "Alice",
           items := [{ productId := "p1", productName := "W", quantity := 1, price := 2 }],
           totalAmount := 2 }]
        "Bob" [{ productId := "p2", productName := "X", quantity := 1, price := 3 }]
        "b2").head? =
      some { id := "b1", customerName := "Alice",
             items := [{ productId := "p1", productName := "W", quantity := 1, price := 2 }],
             totalAmount := 2 } ∧
    (handleAddItemsToPendingListV1
        [{ id := "b1", customerName := "Alice",
           items := [{ productId := "p1", productName := "W", quantity := 1, price := 2 }],
           totalAmount := 2 }]
        "Bob" [{ productId := "p2", productName := "X", quantity := 1, price := 3 }]
        "b2").getLast? =
      some { id := "b2", customerName := "Bob",
             items := [{ productId := "p2", productName := "X", quantity := 1, price := 3 }],
             totalAmount :=
               computeTotal [{ productId := "p2", productName := "X", quantity := 1, price := 3 }] } := by
  constructor <;> rfl

/-- C5 (corrected): in the `createdAt`-stamped revision, a successful create
whose timestamp is fresher than every stored batch places the new batch at the
head and leaves the pending collection sorted newest-created-first (the first
pending-queue revision instead appends at the tail, per the counterexample). -/
theorem createV2_inserts_newest_first (s : AppState) (customerName : String)
    (itemsToAdd : List OrderItem) (freshId : String) (now : ℤ)
    (hname : jsTrim customerName ≠ "") (hitems : itemsToAdd.isEmpty ≠ true)
    (hfresh : ∀ po ∈ s.pendingOrders, po.createdAt < now) :
    ∃ s2, handleAddItemsToPendingList s customerName itemsToAdd freshId now =
        (Except.ok (), s2) ∧
      s2.pendingOrders.Perm
        ({ id := freshId, customerName := customerName, items := itemsToAdd,
           totalAmount := computeTotal itemsToAdd, createdAt := now } :: s.pendingOrders) ∧
      List.Sorted (fun a b => b.createdAt ≤ a.createdAt) s2.pendingOrders ∧
      s2.pendingOrders.head? =
        some { id := freshId, customerName := customerName, items := itemsToAdd,
               totalAmount := computeTotal itemsToAdd, createdAt := now } := by
  unfold handleAddItemsToPendingList
  rw [if_neg hname, if_neg hitems]
  refine ⟨_, rfl, List.perm_insertionSort _ _, sortPendingByCreatedAtDesc_sorted _, ?_⟩
  exact head_of_sorted_createdAt_max (List.perm_insertionSort _ _)
    (sortPendingByCreatedAtDesc_sorted _) hfresh

/-- Witness for C5 at a concrete one-batch store and a fresher timestamp. -/
theorem createV2_inserts_newest_first_witness :
    jsTrim "Bob" ≠ "" ∧
    (∃ s2, handleAddItemsToPendingList
        ⟨[{ id := "b1", customerName := "Alice",
            items := [{ productId := "p1", productName := "W", quantity := 1, price := 2 }],
            totalAmount := 2, createdAt := 10 }], []⟩ "Bob"
        [{ productId := "p2", productName := "X", quantity := 1, price := 3 }] "b2" 50 =
        (Except.ok (), s2) ∧
      s2.pendingOrders.Perm
        ({ id := "b2", customerName := "Bob",
           items := [{ productId := "p2", productName := "X", quantity := 1, price := 3 }],
           totalAmount :=
             computeTotal [{ productId := "p2", productName := "X", quantity := 1, price := 3 }],
           createdAt := 50 } ::
          [{ id := "b1", customerName := "Alice",
             items := [{ productId := "p1", productName := "W", quantity := 1, price := 2 }],
             totalAmount := 2, createdAt := 10 }]) ∧
      List.Sorted (fun a b => b.createdAt ≤ a.createdAt) s2.pendingOrders ∧
      s2.pendingOrders.head? =
        some { id := "b2", customerName := "Bob",
               items := [{ productId := "p2", productName := "X", quantity := 1, price := 3 }],
               totalAmount :=
                 computeTotal [{ productId := "p2", productName := "X", quantity := 1, price := 3 }],
               createdAt := 50 }) :=
  ⟨by decide,
    createV2_inserts_newest_first
      ⟨[{ id := "b1", customerName := "Alice",
          items := [{ productId := "p1", productName := "W", quantity := 1, price := 2 }],
          totalAmount := 2, createdAt := 10 }], []⟩ "Bob"
      [{ productId := "p2", productName := "X", quantity := 1, price := 3 }] "b2" 50
      (by decide) (by decide) (by decide)⟩

/-- C6 (confirmed): `handleAddItemsToPendingList` fails with the
customer-name-required error whenever the trimmed customer name is empty, fails
with the no-items error whenever the staged item list is empty, and in every
failure case returns the pending store exactly as it was. -/
theorem create_validation_atomic (s : AppState) (customerName : String)
    (itemsToAdd : List OrderItem) (freshId : String) (now : ℤ) :
    (jsTrim customerName = "" →
      handleAddItemsToPendingList s customerName itemsToAdd freshId now =
        (Except.error CreateError.customerNameRequired, s)) ∧
    (jsTrim customerName ≠ "" → itemsToAdd = [] →
      handleAddItemsToPendingList s customerName itemsToAdd freshId now =
        (Except.error CreateError.noItemsStaged, s)) ∧
    (∀ e s2, handleAddItemsToPendingList s customerName itemsToAdd freshId now =
        (Except.error e, s2) → s2 = s) := by
  refine ⟨?_, ?_, ?_⟩
  · intro h1
    unfold handleAddItemsToPendingList
    rw [if_pos h1]
  · intro h1 h2
    unfold handleAddItemsToPendingList
    rw [if_neg h1, if_pos (show itemsToAdd.isEmpty = true by rw [h2]; rfl)]
  · intro e s2 h
    unfold handleAddItemsToPendingList at h
    by_cases h1 : jsTrim customerName = ""
    · rw [if_pos h1] at h
      exact (congrArg Prod.snd h).symm
    · by_cases h2 : itemsToAdd.isEmpty
      · rw [if_neg h1, if_pos h2] at h
        exact (congrArg Prod.snd h).symm
      · rw [if_neg h1, if_neg h2] at h
        exact absurd (congrArg Prod.fst h) (by simp)

/-- Witness for C6 at a whitespace-only customer name. -/
theorem create_validation_atomic_witness :
    jsTrim "  " = "" ∧
    handleAddItemsToPendingList ⟨[], []⟩ "  "
        [{ productId := "p1", productName := "W", quantity := 1, price := 2 }] "b1" 0 =
      (Except.error CreateError.customerNameRequired, (⟨[], []⟩ : AppState)) :=
  ⟨by decide,
    (create_validation_atomic ⟨[], []⟩ "  "
        [{ productId := "p1", productName := "W", quantity := 1, price := 2 }] "b1" 0).1
      (by decide)⟩

/-- C7 (confirmed): the Firestore update writes only the `items` and
`totalAmount` fields of a stored pending-order document; `originalItems` and
`originalTotalAmount` (as well as the identity and creation fields) survive any
single update and any sequence of updates unchanged. -/
theorem update_preserves_original_fields (d : PendingOrderDoc)
    (items : List OrderItem) (totalAmount : ℚ)
    (updates : List (List OrderItem × ℚ)) :
    (updatePendingOrderInFirestore d items totalAmount).originalItems = d.originalItems ∧
    (updatePendingOrderInFirestore d items totalAmount).originalTotalAmount =
      d.originalTotalAmount ∧
    (updatePendingOrderInFirestore d items totalAmount).id = d.id ∧
    (updatePendingOrderInFirestore d items totalAmount).customerName = d.customerName ∧
    (updatePendingOrderInFirestore d items totalAmount).createdAt = d.createdAt ∧
    (updates.foldl (fun acc u => updatePendingOrderInFirestore acc u.1 u.2)
        d).originalItems = d.originalItems ∧
    (updates.foldl (fun acc u => updatePendingOrderInFirestore acc u.1 u.2)
        d).originalTotalAmount = d.originalTotalAmount := by
  refine ⟨rfl, rfl, rfl, rfl, rfl, ?_, ?_⟩
  · induction updates generalizing d with
    | nil => rfl
    | cons u us ih => exact ih _
  · induction updates generalizing d with
    | nil => rfl
    | cons u us ih => exact ih _

/-- C4 counterexample: setting a staged item's quantity to `0` does not remove
it — the staging editor clamps it to `1`; the reconciliation editor clamps a
negative request to `0` and also keeps the entry. -/
theorem setQuantity_clamps_to_one_cex :
    handleUpdateStagedItemQuantity
        [{ productId := "p1", productName := "Widget", quantity := 5, price := 3 }] "p1" 0 =
      [{ productId := "p1", productName := "Widget", quantity := 1, price := 3 }] ∧
    handleQuantityChange
        [{ productId := "p1", productName := "Widget", quantity := 5, price := 3 }] "p1" (-2) =
      [{ productId := "p1", productName := "Widget", quantity := 0, price := 3 }] := by
  constructor <;> rfl

/-- C4 (corrected): the quantity editors never remove an entry — the staging
editor replaces the quantity by `max 1 requested` and the reconciliation editor
by `max 0 requested` (replacement, not increment, in both cases) — and the
drop-on-non-positive rule is applied only when the reconciliation edit is
submitted, where exactly the positive-quantity entries survive the filter. -/
theorem quantity_edit_clamp_and_submit_filter (items : List OrderItem)
    (productId : String) (newQuantity : ℤ) :
    (handleUpdateStagedItemQuantity items productId newQuantity).length = items.length ∧
    (∀ item ∈ handleUpdateStagedItemQuantity items productId newQuantity,
      item.productId = productId → item.quantity = max 1 newQuantity) ∧
    (∀ item ∈ handleUpdateStagedItemQuantity items productId newQuantity,
      item.productId ≠ productId → item ∈ items) ∧
    (handleQuantityChange items productId newQuantity).length = items.length ∧
    (∀ item ∈ handleQuantityChange items productId newQuantity,
      item.productId = productId → item.quantity = max 0 newQuantity) ∧
    (∀ item : OrderItem, item ∈ validUpdatedItems items ↔
      item ∈ items ∧ 0 < item.quantity) := by
  refine ⟨List.length_map _ _, ?_, ?_, List.length_map _ _, ?_, ?_⟩
  · intro item hmem hpid
    rcases List.mem_map.mp hmem with ⟨it0, hit0, heq⟩
    subst heq
    by_cases h : it0.productId = productId
    · simp only [h, if_true]
    · rw [if_neg h] at hpid
      exact absurd hpid h
  · intro item hmem hpid
    rcases List.mem_map.mp hmem with ⟨it0, hit0, heq⟩
    subst heq
    by_cases h : it0.productId = productId
    · exfalso
      apply hpid
      simp only [h, if_true]
    · simp only [h, if_false]
      exact hit0
  · intro item hmem hpid
    rcases List.mem_map.mp hmem with ⟨it0, hit0, heq⟩
    subst heq
    by_cases h : it0.productId = productId
    · simp only [h, if_true]
    · rw [if_neg h] at hpid
      exact absurd hpid h
  · intro item
    unfold validUpdatedItems
    rw [List.mem_filter]
    simp only [decide_eq_true_eq]

/-- Witness for C4: the clamped staged item is still in the list with
quantity `max 1 0`. -/
theorem quantity_edit_clamp_and_submit_filter_witness :
    ({ productId := "p1", productName := "Widget", quantity := 1, price := 3 } : OrderItem) ∈
      handleUpdateStagedItemQuantity
        [{ productId := "p1", productName := "Widget", quantity := 5, price := 3 }] "p1" 0 ∧
    ({ productId := "p1", productName := "Widget", quantity := 1, price := 3 } : OrderItem).quantity =
      max 1 0 :=
  ⟨by decide,
    (quantity_edit_clamp_and_submit_filter
        [{ productId := "p1", productName := "Widget", quantity := 5, price := 3 }] "p1" 0).2.1
      { productId := "p1", productName := "Widget", quantity := 1, price := 3 }
      (by decide) (by decide)⟩

/-- C9 (confirmed): every dialog quantity edit clamps to `max 0 requested`, so
any sequence of edits starting from non-negative quantities keeps every
quantity non-negative, and the submission filter passes only strictly positive
quantities to the adjustment path. -/
theorem edited_quantities_nonneg (items : List OrderItem) (edits : List (String × ℤ))
    (h0 : ∀ item ∈ items, 0 ≤ item.quantity) :
    (∀ item ∈ applyEdits items edits, 0 ≤ item.quantity) ∧
    (∀ edited : List OrderItem, ∀ item ∈ validUpdatedItems edited, 0 < item.quantity) := by
  constructor
  · induction edits generalizing items with
    | nil => exact h0
    | cons e es ih => exact ih _ (handleQuantityChange_nonneg h0)
  · intro edited item hmem
    have h := (List.mem_filter.mp hmem).2
    exact of_decide_eq_true h

/-- Witness for C9: a negative typed quantity is clamped, leaving the single
item at quantity `0`, which is still non-negative. -/
theorem edited_quantities_nonneg_witness :
    (∀ item ∈ ([{ productId := "p1", productName := "W", quantity := 2, price := 4 }] :
        List OrderItem), 0 ≤ item.quantity) ∧
    (∀ item ∈ applyEdits
        [{ productId := "p1", productName := "W", quantity := 2, price := 4 }]
        [("p1", -7)], 0 ≤ item.quantity) :=
  ⟨by decide,
    (edited_quantities_nonneg
        [{ productId := "p1", productName := "W", quantity := 2, price := 4 }]
        [("p1", -7)] (by decide)).1⟩

/-- The store after creating a batch for Alice of 4 Widgets at unit price 5
(creation-time total 20). Used by the C1 counterexample only. -/
def c1StateCreated : AppState :=
  (handleAddItemsToPendingList ⟨[], []⟩ "Alice"
      [{ productId := "p1", productName := "Widget", quantity := 4, price := 5 }]
      "b1" 0).2

/-- `c1StateCreated` after an adjustment reducing the pending quantity to 1
(pending total 5). Used by the C1 counterexample only. -/
def c1StateAdjusted : AppState :=
  applyAdjustment c1StateCreated "b1"
    [{ productId := "p1", productName := "Widget", quantity := 1, price := 5 }]

/-- C1 counterexample: the batch was created with total 20, was adjusted down
to a pending quantity of 1, and `handleConfirmFullDelivery` then files a single
historical order whose items and total are the REDUCED ones (quantity 1, total
5), not the original request (quantity 4, total 20). -/
theorem confirmFullDelivery_saves_reduced_total_cex :
    c1StateCreated.pendingOrders.map (fun po => po.items) =
      [[{ productId := "p1", productName := "Widget", quantity := 4, price := 5 }]] ∧
    (handleConfirmFullDelivery c1StateAdjusted "b1" "o1" 100).map
        (fun s2 => s2.orders.map (fun o => o.items)) =
      some [[{ productId := "p1", productName := "Widget", quantity := 1, price := 5 }]] ∧
    computeTotal
        [{ productId := "p1", productName := "Widget", quantity := 4, price := 5 }] = 20 ∧
    computeTotal
        [{ productId := "p1", productName := "Widget", quantity := 1, price := 5 }] = 5 := by
  refine ⟨by decide, by decide, ?_, ?_⟩
  · norm_num [computeTotal]
  · norm_num [computeTotal]

/-- C1 (corrected): `handleConfirmFullDelivery` files an order built from the
batch's currently stored `items` and `totalAmount` (the pending batch of this
revision retains no creation-time originals), appends exactly that order to the
history, and removes the batch from the pending store. -/
theorem confirmFullDelivery_uses_current_items (s : AppState)
    (pendingOrderId freshOrderId : String) (now : ℤ) (b : PendingOrder)
    (hfind : s.pendingOrders.find? (fun po => po.id = pendingOrderId) = some b) :
    ∃ s2, handleConfirmFullDelivery s pendingOrderId freshOrderId now = some s2 ∧
      s2.orders.Perm
        ({ id := freshOrderId, customerName := b.customerName, items := b.items,
           totalAmount := b.totalAmount, orderDate := now } :: s.orders) ∧
      s2.pendingOrders = s.pendingOrders.filter (fun po => po.id ≠ pendingOrderId) := by
  unfold handleConfirmFullDelivery
  rw [hfind]
  exact ⟨_, rfl, List.perm_insertionSort _ _, rfl⟩

/-- Witness for C1 at a one-batch store. -/
theorem confirmFullDelivery_uses_current_items_witness :
    (AppState.pendingOrders
        ⟨[{ id := "b1", customerName := "Alice",
            items := [{ productId := "p1", productName := "W", quantity := 2, price := 3 }],
            totalAmount := 6, createdAt := 0 }], []⟩).find?
        (fun po => po.id = "b1") =
      some { id := "b1", customerName := "Alice",
             items := [{ productId := "p1", productName := "W", quantity := 2, price := 3 }],
             totalAmount := 6, createdAt := 0 } ∧
    (∃ s2, handleConfirmFullDelivery
        ⟨[{ id := "b1", customerName := "Alice",
            items := [{ productId := "p1", productName := "W", quantity := 2, price := 3 }],
            totalAmount := 6, createdAt := 0 }], []⟩ "b1" "o1" 9 = some s2 ∧
      s2.orders.Perm
        [{ id := "o1", customerName := "Alice",
           items := [{ productId := "p1", productName := "W", quantity := 2, price := 3 }],
           totalAmount := 6, orderDate := 9 }] ∧
      s2.pendingOrders =
        (AppState.pendingOrders
            ⟨[{ id := "b1", customerName := "Alice",
                items := [{ productId := "p1", productName := "W", quantity := 2, price := 3 }],
                totalAmount := 6, createdAt := 0 }], []⟩).filter
          (fun po => po.id ≠ "b1")) :=
  ⟨rfl,
    confirmFullDelivery_uses_current_items
      ⟨[{ id := "b1", customerName := "Alice",
          items := [{ productId := "p1", productName := "W", quantity := 2, price := 3 }],
          totalAmount := 6, createdAt := 0 }], []⟩ "b1" "o1" 9
      { id := "b1", customerName := "Alice",
        items := [{ productId := "p1", productName := "W", quantity := 2, price := 3 }],
        totalAmount := 6, createdAt := 0 } rfl⟩

/-- The store after creating a batch for Cathy of 3 items at unit price 2.
Used by the C2 counterexample only. -/
def c2StateCreated : AppState :=
  (handleAddItemsToPendingList ⟨[], []⟩ "Cathy"
      [{ productId := "p1", productName := "W", quantity := 3, price := 2 }]
      "b1" 0).2

/-- C2 counterexample: submitting an adjustment in which every edited quantity
is 0 removes the batch but appends NOTHING to the order history — no order with
the batch's original items/total (or any order at all) is created. -/
theorem zeroing_appends_no_order_cex :
    c2StateCreated.pendingOrders ≠ [] ∧
    (applyAdjustment c2StateCreated "b1"
        [{ productId := "p1", productName := "W", quantity := 0, price := 2 }]).pendingOrders =
      [] ∧
    (applyAdjustment c2StateCreated "b1"
        [{ productId := "p1", productName := "W", quantity := 0, price := 2 }]).orders = [] := by
  refine ⟨by decide, by decide, by decide⟩

/-- C2 (corrected): for a stored batch, an adjustment in which every edited
quantity is 0 filters down to the empty list, so the handler deletes the batch
from the pending store and leaves the order history exactly unchanged — no
historical order is appended. -/
theorem zeroing_removes_batch_appends_nothing (s : AppState) (pendingOrderId : String)
    (b : PendingOrder) (editedItems : List OrderItem)
    (hfind : s.pendingOrders.find? (fun po => po.id = pendingOrderId) = some b)
    (hzero : ∀ item ∈ editedItems, item.quantity = 0) :
    applyAdjustment s pendingOrderId editedItems =
      { pendingOrders := s.pendingOrders.filter (fun po => po.id ≠ pendingOrderId),
        orders := s.orders } := by
  have hv : validUpdatedItems editedItems = [] := by
    unfold validUpdatedItems
    refine List.filter_eq_nil_iff.mpr ?_
    intro item hmem
    simp [hzero item hmem]
  unfold applyAdjustment
  rw [hv]
  unfold handleUpdatePendingOrderQuantities
  rw [hfind]
  rfl

/-- Witness for C2 at a one-batch store and a single zeroed edit. -/
theorem zeroing_removes_batch_appends_nothing_witness :
    (AppState.pendingOrders
        ⟨[{ id := "b1", customerName := "Cathy",
            items := [{ productId := "p1", productName := "W", quantity := 3, price := 2 }],
            totalAmount := 6, createdAt := 0 }], []⟩).find?
        (fun po => po.id = "b1") =
      some { id := "b1", customerName := "Cathy",
             items := [{ productId := "p1", productName := "W", quantity := 3, price := 2 }],
             totalAmount := 6, createdAt := 0 } ∧
    applyAdjustment
        ⟨[{ id := "b1", customerName := "Cathy",
            items := [{ productId := "p1", productName := "W", quantity := 3, price := 2 }],
            totalAmount := 6, createdAt := 0 }], []⟩ "b1"
        [{ productId := "p1", productName := "W", quantity := 0, price := 2 }] =
      { pendingOrders :=
          (AppState.pendingOrders
              ⟨[{ id := "b1", customerName := "Cathy",
                  items := [{ productId := "p1", productName := "W", quantity := 3, price := 2 }],
                  totalAmount := 6, createdAt := 0 }], []⟩).filter
            (fun po => po.id ≠ "b1"),
        orders := [] } :=
  ⟨rfl,
    zeroing_removes_batch_appends_nothing
      ⟨[{ id := "b1", customerName := "Cathy",
          items := [{ productId := "p1", productName := "W", quantity := 3, price := 2 }],
          totalAmount := 6, createdAt := 0 }], []⟩ "b1"
      { id := "b1", customerName := "Cathy",
        items := [{ productId := "p1", productName := "W", quantity := 3, price := 2 }],
        totalAmount := 6, createdAt := 0 }
      [{ productId := "p1", productName := "W", quantity := 0, price := 2 }]
      rfl (by decide)⟩

/-- C3 counterexample: with a pending batch far older than 24 hours in the
store (and a fresh order so the guarded effect actually runs), the aged-entry
check emits no alert at all — the pending store is never scanned. -/
theorem aged_check_ignores_pending_cex :
    runAgedOrderCheck
        ⟨[{ id := "b1", customerName := "Alice",
            items := [{ productId := "p1", productName := "W", quantity := 1, price := 2 }],
            totalAmount := 2, createdAt := 0 }],
         [{ id := "o1", customerName := "Bea",
            items := [{ productId := "p2", productName := "X", quantity := 1, price := 3 }],
            totalAmount := 3, orderDate := 999999000 }]⟩
        1000000000 false = ([], true) ∧
    TWENTY_FOUR_HOURS_MS < 1000000000 - (0 : ℤ) := by
  refine ⟨by decide, by decide⟩

/-- C3 (corrected): on its single guarded run the aged check alerts exactly for
the orders in the history store older than 24 hours — pending batches are never
scanned — and once the done flag is set every further run emits nothing, so no
entry can alert twice in one process lifetime. -/
theorem aged_check_orders_only_once (s : AppState) (now : ℤ) :
    (∀ o ∈ s.orders, TWENTY_FOUR_HOURS_MS < now - o.orderDate →
      o.id ∈ (runAgedOrderCheck s now false).1) ∧
    (∀ a ∈ (runAgedOrderCheck s now false).1, ∃ o ∈ s.orders,
      o.id = a ∧ TWENTY_FOUR_HOURS_MS < now - o.orderDate) ∧
    (∀ s2 : AppState, ∀ now2 : ℤ, runAgedOrderCheck s2 now2 true = ([], true)) := by
  refine ⟨?_, ?_, fun s2 now2 => rfl⟩
  · intro o hmem haged
    have hne : s.orders.isEmpty ≠ true := by
      cases h : s.orders with
      | nil => rw [h] at hmem; exact absurd hmem (List.not_mem_nil o)
      | cons x xs => simp [h]
    unfold runAgedOrderCheck
    rw [if_pos ⟨rfl, hne⟩]
    exact List.mem_map.mpr
      ⟨o, List.mem_filter.mpr ⟨hmem, decide_eq_true haged⟩, rfl⟩
  · intro a hmem
    unfold runAgedOrderCheck at hmem
    by_cases hne : s.orders.isEmpty = true
    · rw [if_neg (fun hc => hc.2 hne)] at hmem
      exact absurd hmem (List.not_mem_nil a)
    · rw [if_pos ⟨rfl, hne⟩] at hmem
      rcases List.mem_map.mp hmem with ⟨o, ho, rfl⟩
      rcases List.mem_filter.mp ho with ⟨homem, haged⟩
      exact ⟨o, homem, rfl, of_decide_eq_true haged⟩

/-- Witness for C3: a 25-hour-old order does get its alert on the first run. -/
theorem aged_check_orders_only_once_witness :
    ({ id := "o1", customerName := "Bea",
       items := [{ productId := "p2", productName := "X", quantity := 1, price := 3 }],
       totalAmount := 3, orderDate := 0 } : Order) ∈
      (AppState.orders ⟨[],
        [{ id := "o1", customerName := "Bea",
           items := [{ productId := "p2", productName := "X", quantity := 1, price := 3 }],
           totalAmount := 3, orderDate := 0 }]⟩) ∧
    TWENTY_FOUR_HOURS_MS < 90000000 - (0 : ℤ) ∧
    "o1" ∈ (runAgedOrderCheck
        ⟨[], [{ id := "o1", customerName := "Bea",
                items := [{ productId := "p2", productName := "X", quantity := 1, price := 3 }],
                totalAmount := 3, orderDate := 0 }]⟩ 90000000 false).1 :=
  ⟨by decide, by decide,
    (aged_check_orders_only_once
        ⟨[], [{ id := "o1", customerName := "Bea",
                items := [{ productId := "p2", productName := "X", quantity := 1, price := 3 }],
                totalAmount := 3, orderDate := 0 }]⟩ 90000000).1
      { id := "o1", customerName := "Bea",
        items := [{ productId := "p2", productName := "X", quantity := 1, price := 3 }],
        totalAmount := 3, orderDate := 0 }
      (by decide) (by decide)⟩

/-- C8 (confirmed): resubmitting a stored batch's own (non-empty, all-positive,
total-consistent) current items through the adjustment path leaves a batch
under the same id whose `items` and `totalAmount` are numerically identical to
the stored ones. -/
theorem applyAdjustment_idempotent (s : AppState) (pendingOrderId : String)
    (b : PendingOrder)
    (hfind : s.pendingOrders.find? (fun po => po.id = pendingOrderId) = some b)
    (hpos : ∀ item ∈ b.items, 0 < item.quantity)
    (hne : b.items ≠ [])
    (htot : b.totalAmount = computeTotal b.items) :
    (∃ po ∈ (applyAdjustment s pendingOrderId b.items).pendingOrders,
      po.id = pendingOrderId) ∧
    (∀ po ∈ (applyAdjustment s pendingOrderId b.items).pendingOrders,
      po.id = pendingOrderId → po.items = b.items ∧ po.totalAmount = b.totalAmount) := by
  have hbid : b.id = pendingOrderId := by
    have h := List.find?_some hfind
    exact of_decide_eq_true h
  have hbmem : b ∈ s.pendingOrders := List.mem_of_find?_eq_some hfind
  have hfilter : validUpdatedItems b.items = b.items := by
    unfold validUpdatedItems
    exact List.filter_eq_self.mpr (fun item hmem => decide_eq_true (hpos item hmem))
  have hie : b.items.isEmpty ≠ true := by
    cases h : b.items with
    | nil => exact absurd h hne
    | cons x xs => simp
  unfold applyAdjustment
  rw [hfilter]
  unfold handleUpdatePendingOrderQuantities
  rw [hfind, if_neg hie]
  constructor
  · refine ⟨{ b with items := b.items, totalAmount := computeTotal b.items }, ?_, hbid⟩
    refine (List.perm_insertionSort _ _).mem_iff.mpr ?_
    refine List.mem_map.mpr ⟨b, hbmem, ?_⟩
    rw [if_pos hbid]
  · intro po hpo hpoid
    have hpo2 := (List.perm_insertionSort _ _).mem_iff.mp hpo
    rcases List.mem_map.mp hpo2 with ⟨po0, hpo0, heq⟩
    by_cases h : po0.id = pendingOrderId
    · rw [if_pos h] at heq
      subst heq
      exact ⟨rfl, htot.symm⟩
    · rw [if_neg h] at heq
      subst heq
      exact absurd hpoid h

/-- Witness for C8: resubmitting the stored item list of a concrete one-batch
store leaves that batch's items and total untouched. -/
theorem applyAdjustment_idempotent_witness :
    (AppState.pendingOrders
        ⟨[{ id := "b1", customerName := "Dee",
            items := [{ productId := "p1", productName := "W", quantity := 2, price := 3 }],
            totalAmount :=
              computeTotal [{ productId := "p1", productName := "W", quantity := 2, price := 3 }],
            createdAt := 0 }], []⟩).find? (fun po => po.id = "b1") =
      some { id := "b1", customerName := "Dee",
             items := [{ productId := "p1", productName := "W", quantity := 2, price := 3 }],
             totalAmount :=
               computeTotal [{ productId := "p1", productName := "W", quantity := 2, price := 3 }],
             createdAt := 0 } ∧
    (∃ po ∈ (applyAdjustment
        ⟨[{ id := "b1", customerName := "Dee",
            items := [{ productId := "p1", productName := "W", quantity := 2, price := 3 }],
            totalAmount :=
              computeTotal [{ productId := "p1", productName := "W", quantity := 2, price := 3 }],
            createdAt := 0 }], []⟩ "b1"
        [{ productId := "p1", productName := "W", quantity := 2, price := 3 }]).pendingOrders,
      po.id = "b1") :=
  ⟨rfl,
    (applyAdjustment_idempotent
        ⟨[{ id := "b1", customerName := "Dee",
            items := [{ productId := "p1", productName := "W", quantity := 2, price := 3 }],
            totalAmount :=
              computeTotal [{ productId := "p1", productName := "W", quantity := 2, price := 3 }],
            createdAt := 0 }], []⟩ "b1"
        { id := "b1", customerName := "Dee",
          items := [{ productId := "p1", productName := "W", quantity := 2, price := 3 }],
          totalAmount :=
            computeTotal [{ productId := "p1", productName := "W", quantity := 2, price := 3 }],
          createdAt := 0 }
        rfl (by decide) (by decide) rfl).1⟩

/-- Splicing fact about `incrementFirstMatch`: with no earlier entry matching
the product id, exactly the first matching entry has its quantity incremented
and everything else is untouched. -/
theorem incrementFirstMatch_spec (pid : String) (q : ℤ) (l1 l2 : List OrderItem)
    (item0 : OrderItem) (h0 : item0.productId = pid)
    (hl1 : ∀ x ∈ l1, x.productId ≠ pid) :
    incrementFirstMatch pid q (l1 ++ item0 :: l2) =
      l1 ++ { item0 with quantity := item0.quantity + q } :: l2 := by
  induction l1 with
  | nil =>
    simp only [List.nil_append, incrementFirstMatch]
    rw [if_pos h0]
  | cons x xs ih =>
    have hx : x.productId ≠ pid := hl1 x (List.mem_cons_self x xs)
    have ih2 := ih (fun y hy => hl1 y (List.mem_cons_of_mem x hy))
    simp only [List.cons_append, incrementFirstMatch, List.append_eq]
    rw [if_neg hx, ih2]

/-- C10 (confirmed): batch creation copies the staged list into the new pending
batch verbatim (whatever duplicate product ids it contains), while the staging
aggregator is where merging happens: an existing entry for the product id gets
its quantity incremented in place, and otherwise a fresh entry is appended. -/
theorem creation_verbatim_staging_merges (s : AppState) (customerName : String)
    (itemsToAdd : List OrderItem) (freshId : String) (now : ℤ)
    (staged l1 l2 : List OrderItem) (item0 : OrderItem)
    (pid pname : String) (price : ℚ) (q : ℤ) :
    (jsTrim customerName ≠ "" → itemsToAdd.isEmpty ≠ true →
      ∃ po ∈ (handleAddItemsToPendingList s customerName itemsToAdd freshId now).2.pendingOrders,
        po.id = freshId ∧ po.items = itemsToAdd ∧
        po.totalAmount = computeTotal itemsToAdd) ∧
    ((∀ x ∈ staged, x.productId ≠ pid) →
      handleStageItem staged pid pname price q =
        staged ++ [{ productId := pid, productName := pname, quantity := q, price := price }]) ∧
    (staged = l1 ++ item0 :: l2 → item0.productId = pid →
      (∀ x ∈ l1, x.productId ≠ pid) →
      handleStageItem staged pid pname price q =
        l1 ++ { item0 with quantity := item0.quantity + q } :: l2) := by
  refine ⟨?_, ?_, ?_⟩
  · intro hname hitems
    unfold handleAddItemsToPendingList
    rw [if_neg hname, if_neg hitems]
    refine ⟨{ id := freshId, customerName := customerName, items := itemsToAdd,
              totalAmount := computeTotal itemsToAdd, createdAt := now },
      ?_, rfl, rfl, rfl⟩
    exact (List.perm_insertionSort _ _).mem_iff.mpr (List.mem_cons_self _ _)
  · intro hnone
    unfold handleStageItem
    rw [if_neg ?_]
    rw [List.any_eq_true]
    rintro ⟨x, hx, hxp⟩
    exact hnone x hx (of_decide_eq_true hxp)
  · intro hsplit h0 hl1
    subst hsplit
    unfold handleStageItem
    rw [if_pos ?_, incrementFirstMatch_spec pid q l1 l2 item0 h0 hl1]
    rw [List.any_eq_true]
    exact ⟨item0, List.mem_append_right l1 (List.mem_cons_self item0 l2),
      decide_eq_true h0⟩

/-- Witness for C10: creating a batch from a staged list holding two separate
entries for the same product id stores both entries unmerged, and staging the
same product again increments the existing staged entry instead. -/
theorem creation_verbatim_staging_merges_witness :
    jsTrim "Eve" ≠ "" ∧
    (∃ po ∈ (handleAddItemsToPendingList ⟨[], []⟩ "Eve"
        [{ productId := "p1", productName := "W", quantity := 1, price := 2 },
         { productId := "p1", productName := "W", quantity := 5, price := 2 }]
        "b1" 0).2.pendingOrders,
      po.id = "b1" ∧
      po.items =
        [{ productId := "p1", productName := "W", quantity := 1, price := 2 },
         { productId := "p1", productName := "W", quantity := 5, price := 2 }] ∧
      po.totalAmount =
        computeTotal
          [{ productId := "p1", productName := "W", quantity := 1, price := 2 },
           { productId := "p1", productName := "W", quantity := 5, price := 2 }]) ∧
    handleStageItem
        [{ productId := "p1", productName := "W", quantity := 1, price := 2 }]
        "p1" "W" 2 4 =
      [{ productId := "p1", productName := "W", quantity := 5, price := 2 }] :=
  ⟨by decide,
    (creation_verbatim_staging_merges ⟨[], []⟩ "Eve"
        [{ productId := "p1", productName := "W", quantity := 1, price := 2 },
         { productId := "p1", productName := "W", quantity := 5, price := 2 }]
        "b1" 0 [] [] [] { productId := "p1", productName := "W", quantity := 1, price := 2 }
        "p1" "W" 2 4).1 (by decide) (by decide),
    by
      have h := (creation_verbatim_staging_merges ⟨[], []⟩ "Eve"
        [{ productId := "p1", productName := "W", quantity := 1, price := 2 },
         { productId := "p1", productName := "W", quantity := 5, price := 2 }]
        "b1" 0 [{ productId := "p1", productName := "W", quantity := 1, price := 2 }] []
        [] { productId := "p1", productName := "W", quantity := 1, price := 2 }
        "p1" "W" 2 4).2.2 rfl rfl (by decide)
      simpa using h⟩

end Orderly